import Mathlib

/-!
Verification of the ingestion-pipeline contract of the streaming_challenge
repository (producers -> list queue -> consumer -> output log / snapshot,
plus the dashboard regression gate).

The Python values flowing through the pipeline (results of json.loads) are
embedded as `PyVal`; Python floats are idealised as rationals, so the
decimal rounding of `round(x, n)` is modelled exactly (half-to-even on the
rational value) rather than on the IEEE-754 representation.
-/

/-- A Python value as produced by json.loads: None, bool, int, float
(idealised as an exact rational), str, list, dict (association list,
in insertion order). -/
inductive PyVal where
  | none
  | bool (b : Bool)
  | int (n : ℤ)
  | float (q : ℚ)
  | str (s : String)
  | list (xs : List PyVal)
  | dict (kvs : List (String × PyVal))

/-- Python truthiness: None, False, 0, 0.0, "", [], \x7b\x7d are falsy. -/
def pyTruthy : PyVal → Bool
  | .none => false
  | .bool b => b
  | .int n => n != 0
  | .float q => q != 0
  | .str s => s != ""
  | .list xs => !xs.isEmpty
  | .dict kvs => !kvs.isEmpty

/-- Python `a or b`: `b` when `a` is falsy, else `a`. -/
def pyOr (a b : PyVal) : PyVal := if pyTruthy a then a else b

/-- Floor of a rational as an integer (Python-style floor). -/
def ratFloorZ (x : ℚ) : ℤ := ⌊x⌋

/-- Truncation toward zero, as Python's `int(float)`. -/
def ratTrunc (x : ℚ) : ℤ := if 0 ≤ x then ⌊x⌋ else ⌈x⌉

/-- Round a rational to the nearest integer, ties to even, as Python's
`round` (idealised over the exact rational value). -/
def roundHalfEven (x : ℚ) : ℤ :=
  let f : ℤ := ⌊x⌋
  if x - f < 1/2 then f
  else if 1/2 < x - f then f + 1
  else if f % 2 = 0 then f else f + 1

/-- Python's `round(x, d)` (idealised): round `x` to `d` decimal places,
ties to even. -/
def roundTo (d : ℕ) (x : ℚ) : ℚ := (roundHalfEven (x * 10 ^ d) : ℚ) / 10 ^ d

/-- Value of a list of decimal digit characters. -/
def digitsToNat (cs : List Char) : ℕ :=
  cs.foldl (fun a c => a * 10 + (c.toNat - 48)) 0

/-- All characters are decimal digits. -/
def allDigits (cs : List Char) : Bool := cs.all Char.isDigit

/-- Split a character list at the first dot, if any. -/
def splitDot : List Char → List Char × Option (List Char)
  | [] => ([], Option.none)
  | c :: rest =>
    if c = '.' then ([], some rest)
    else
      let p := splitDot rest
      (c :: p.1, p.2)

/-- Strip an optional leading sign, returning the sign as a rational. -/
def stripSign : List Char → ℚ × List Char
  | '-' :: rest => (-1, rest)
  | '+' :: rest => (1, rest)
  | cs => (1, cs)

/-- Parse a plain decimal literal (optional sign, digits, optional dot and
fraction digits) as Python's `float(str)` does on such literals; any other
string fails.  (Exponent forms, inf/nan, underscores and surrounding
whitespace - which the pipeline never produces - are not modelled.) -/
def parsePyFloat (s : String) : Option ℚ :=
  let p := stripSign s.data
  let q := splitDot p.2
  match q.2 with
  | Option.none =>
    if q.1 ≠ [] ∧ allDigits q.1 then some (p.1 * digitsToNat q.1) else Option.none
  | some frac =>
    if (q.1 ≠ [] ∨ frac ≠ []) ∧ allDigits q.1 ∧ allDigits frac then
      some (p.1 * ((digitsToNat q.1 : ℚ) + (digitsToNat frac : ℚ) / 10 ^ frac.length))
    else Option.none

/-- Parse a plain integer literal (optional sign, digits) as Python's
`int(str)` does; any other string fails. -/
def parsePyInt (s : String) : Option ℤ :=
  let p := stripSign s.data
  if p.2 ≠ [] ∧ allDigits p.2 then
    some (if p.1 < 0 then -(digitsToNat p.2 : ℤ) else (digitsToNat p.2 : ℤ))
  else Option.none

/-- Python's `float(v)` coercion: succeeds on ints, floats, bools and
numeric strings; raises (returns `Option.none`) on None, non-numeric
strings, lists and dicts. -/
def pyFloat : PyVal → Option ℚ
  | .int n => some (n : ℚ)
  | .float q => some q
  | .bool b => some (if b then 1 else 0)
  | .str s => parsePyFloat s
  | _ => Option.none

/-- Python's `int(v)` coercion: succeeds on ints, bools, floats (truncating
toward zero) and integer-literal strings; raises (returns `Option.none`)
otherwise. -/
def pyInt : PyVal → Option ℤ
  | .int n => some n
  | .bool b => some (if b then 1 else 0)
  | .float q => some (ratTrunc q)
  | .str s => parsePyInt s
  | _ => Option.none

/-- The CanonicalRecord built by consumer.py's enrich_record: the Python
dict literal of lines 58-66.  `title` is carried through as an arbitrary
Python value (the code does not coerce it). -/
structure Record where
  timestamp : ℤ
  title : PyVal
  hype_score : ℚ
  brand_equity : ℤ
  imdb_rating : Option ℚ
  netflix_hours : ℚ
  engagement_score : ℚ

/-- `(imdb_rating or 5.0)` of consumer.py line 56: the Python float-or-None
value, with None and 0.0 both falsy. -/
def imdbOr5 : Option ℚ → ℚ
  | some q => if q = 0 then 5 else q
  | Option.none => 5

/-- Core of consumer.py's enrich_record, lines 36-67, once the event dict
`kvs` and its metrics dict `m` are in hand.  `Option.none` models an
uncaught exception (a truthy non-numeric hype_score / brand_equity /
netflix_hours / timestamp), which escapes enrich_record; note only the
imdb_rating coercion is wrapped in try/except in the source. -/
def enrichCore (now : ℤ) (kvs m : List (String × PyVal)) : Option Record :=
  let eget := fun k => ((kvs.lookup k).getD PyVal.none)
  let mget := fun k => ((m.lookup k).getD PyVal.none)
  let ts := pyOr (eget "timestamp") (.int now)
  let title := pyOr (pyOr (eget "title") (mget "title")) (.str "Unknown")
  let imdb := pyFloat (mget "imdb_rating")
  match pyFloat (pyOr (mget "hype_score") (.float 0)),
        pyInt (pyOr (mget "brand_equity") (.int 0)),
        pyFloat (pyOr (mget "netflix_hours") (.float 0)),
        pyInt ts with
  | some hype, some brand, some netflix, some tsInt =>
      some { timestamp := tsInt
             title := title
             hype_score := roundTo 3 hype
             brand_equity := brand
             imdb_rating := imdb
             netflix_hours := netflix
             engagement_score := roundTo 4 (hype * (imdbOr5 imdb / 10)) }
  | _, _, _, _ => Option.none

/-- consumer.py's enrich_record (lines 34-67).  `now` is the wall clock
`int(time.time())` read when the event's timestamp is falsy.  `Option.none`
models an uncaught exception: the event is not a dict (`.get` raises), the
metrics value is present but not a dict, or a coercion in `enrichCore`
raises. -/
def enrich_record (now : ℤ) (event : PyVal) : Option Record :=
  match event with
  | .dict kvs =>
    match (kvs.lookup "metrics").getD (.dict []) with
    | .dict m => enrichCore now kvs m
    | _ => Option.none
  | _ => Option.none

/-- The metrics dict of an event, when the event is a dict and its metrics
entry is a dict (or absent, defaulting to empty) - the cases in which
enrich_record does not raise on `metrics.get`. -/
def metricsOf (e : PyVal) : Option (List (String × PyVal)) :=
  match e with
  | .dict kvs =>
    match (kvs.lookup "metrics").getD (.dict []) with
    | .dict m => some m
    | _ => Option.none
  | _ => Option.none

/-- The coerced hype value `float(metrics.get("hype_score") or 0.0)` of
consumer.py line 41. -/
def hypeOf (e : PyVal) : Option ℚ :=
  (metricsOf e).bind fun m =>
    pyFloat (pyOr ((m.lookup "hype_score").getD PyVal.none) (.float 0))

/-- The coerced imdb value of consumer.py lines 47-51 (None on absence or
coercion failure; never raises). -/
def imdbOf (e : PyVal) : Option ℚ :=
  match metricsOf e with
  | some m => pyFloat ((m.lookup "imdb_rating").getD PyVal.none)
  | Option.none => Option.none

/-- The metric values the RawEvent schema allows: numeric or null. -/
def numOrNull : PyVal → Bool
  | .none => true
  | .int _ => true
  | .float _ => true
  | _ => false

/-- Modelled from the spec (section 3, RawEvent): the code has no explicit
validator, so schema validity is taken from the spec's words - a dict with
an integer `timestamp`, a non-empty string `title`, and a `metrics` dict
whose values are numeric-or-null. -/
def validRawEvent (e : PyVal) : Bool :=
  match e with
  | .dict kvs =>
    (match kvs.lookup "timestamp" with
     | some (.int _) => true
     | _ => false) &&
    (match kvs.lookup "title" with
     | some (.str s) => s != ""
     | _ => false) &&
    (match kvs.lookup "metrics" with
     | some (.dict m) => m.all (fun p => numOrNull p.2)
     | _ => false)
  | _ => false

/-- The event carries a truthy timestamp (so enrich_record never reads the
wall clock for it). -/
def tsTruthy (e : PyVal) : Bool :=
  match e with
  | .dict kvs => pyTruthy ((kvs.lookup "timestamp").getD PyVal.none)
  | _ => false

/-- consumer.py's safe_parse (lines 27-32), parameterised by the outcome of
the external json.loads call: a parse failure (`Option.none`) is swallowed
and becomes the empty dict. -/
def safe_parse (parsed : Option PyVal) : PyVal := parsed.getD (.dict [])

/-- One item of consumer.py's main_loop inner for-loop (lines 88-97):
`some []` - the parsed value is falsy and the item is skipped (the code
only logs a warning; it keeps no skip counter); `some [rec]` - the record
queued for the output log; `Option.none` - enrich_record raised and the
exception escapes the loop. -/
def processItem (now : ℤ) (parsed : Option PyVal) : Option (List Record) :=
  let ev := safe_parse parsed
  if pyTruthy ev then
    match enrich_record now ev with
    | some rec => some [rec]
    | Option.none => Option.none
  else some []

/-- The whole inner for-loop over a dequeued batch: the records queued on
the redis pipeline, in dequeue order; `Option.none` when any item raises
(the pipeline is then never executed, so nothing of the batch reaches the
output log). -/
def processBatch (now : ℤ) (items : List (Option PyVal)) : Option (List Record) :=
  match items with
  | [] => some []
  | it :: rest =>
    match processItem now it with
    | Option.none => Option.none
    | some rs =>
      match processBatch now rest with
      | Option.none => Option.none
      | some rest2 => some (rs ++ rest2)

/-- The consumer's mutable state in main_loop: the processed-record count,
the output log (REDIS_DATA_LIST), the in-memory snapshot buffer, and the
on-disk snapshot file contents. -/
structure ConsumerState where
  totalProcessed : ℕ
  outLog : List Record
  snapAccum : List Record
  snapFile : List Record

/-- One iteration of consumer.py's main_loop (lines 82-110) on a dequeued
batch.  `snapshotOk` is the outcome of the external file write (the
try/except of lines 102-109 swallows a failure, and the buffer is reset
either way).  `Option.none` models the loop crashing on an uncaught
enrichment exception, before `pipe.execute()`. -/
def mainStep (snapshotEvery : ℕ) (now : ℤ) (items : List (Option PyVal))
    (snapshotOk : Bool) (st : ConsumerState) : Option ConsumerState :=
  if items.isEmpty then some st
  else
    match processBatch now items with
    | Option.none => Option.none
    | some recs =>
      let st1 : ConsumerState :=
        { totalProcessed := st.totalProcessed + recs.length
          outLog := st.outLog ++ recs
          snapAccum := st.snapAccum ++ recs
          snapFile := st.snapFile }
      if snapshotEvery ≤ st1.snapAccum.length then
        some { st1 with
               snapAccum := []
               snapFile := if snapshotOk then st1.snapFile ++ st1.snapAccum
                           else st1.snapFile }
      else some st1

/-- The producers' enqueue: `rpush` appends the serialised event to the
tail of the queue (producer.py line 221). -/
def enqueue (q : List String) (e : String) : List String := q ++ [e]

/-- consumer.py's pop_batch (lines 69-76): `lpop` up to `n` items from the
head, stopping early when the queue runs out; returns the dequeued items in
queue order together with the remaining queue. -/
def pop_batch (n : ℕ) (q : List String) : List String × List String :=
  match n, q with
  | 0, rest => ([], rest)
  | _ + 1, [] => ([], [])
  | n + 1, x :: rest =>
    let p := pop_batch n rest
    (x :: p.1, p.2)

/-- The fitted model of the dashboard's regression section: coefficient,
intercept and R-squared, the three quantities app.py line 92 reports. -/
structure Fit where
  coef : ℚ
  intercept : ℚ
  r2 : ℚ

/-- Outcome of the dashboard ML section: a fitted model, or the
insufficient-data message ("Not enough samples for ML (need >30 rows).",
app.py line 99). -/
inductive RegResult where
  | fitted (f : Fit)
  | insufficient

/-- Modelled from the spec (section 4.3) and known OLS closed forms:
sklearn's LinearRegression().fit and r2_score are external library calls,
embedded here as one-variable ordinary least squares over exact
rationals. -/
def olsFit (pts : List (ℚ × ℚ)) : Fit :=
  let n : ℚ := pts.length
  let sx := (pts.map Prod.fst).sum
  let sy := (pts.map Prod.snd).sum
  let sxx := (pts.map (fun p => p.1 * p.1)).sum
  let sxy := (pts.map (fun p => p.1 * p.2)).sum
  let slope := (n * sxy - sx * sy) / (n * sxx - sx * sx)
  let intercept := sy / n - slope * (sx / n)
  let ssRes := (pts.map (fun p => (p.2 - (slope * p.1 + intercept)) ^ 2)).sum
  let ssTot := (pts.map (fun p => (p.2 - sy / n) ^ 2)).sum
  { coef := slope, intercept := intercept, r2 := 1 - ssRes / ssTot }

/-- The gating of app.py's ML section (lines 87-99): fit and report
coefficient, intercept and R-squared only when more than 30 prepared
samples are available, otherwise report insufficient data and no model.
(app_enhanced.py lines 262-308 has the same shape with threshold 5.) -/
def mlSection (samples : List (ℚ × ℚ)) : RegResult :=
  if 30 < samples.length then .fitted (olsFit samples) else .insufficient

/-- Any successful enrichment factors through the metrics dict and the
coerced hype value, and its rating, hype and engagement fields have the
shapes of consumer.py lines 47-65. -/
theorem enrich_shape (now : ℤ) (e : PyVal) (rec : Record)
    (h : enrich_record now e = some rec) :
    ∃ m hype, metricsOf e = some m ∧
      pyFloat (pyOr ((m.lookup "hype_score").getD PyVal.none) (.float 0)) = some hype ∧
      rec.imdb_rating = pyFloat ((m.lookup "imdb_rating").getD PyVal.none) ∧
      rec.hype_score = roundTo 3 hype ∧
      rec.engagement_score = roundTo 4 (hype * (imdbOr5 rec.imdb_rating / 10)) := by
  cases e <;> simp only [enrich_record] at h <;> try exact absurd h (by simp)
  case dict kvs =>
    simp only [metricsOf]
    split at h
    case _ m hm =>
      simp only [enrichCore] at h
      split at h
      case _ hype brand netflix tsInt h1 h2 h3 h4 =>
        injection h with h5
        subst h5
        exact ⟨m, hype, rfl, h1, rfl, rfl, rfl⟩
      case _ => exact absurd h (by simp)
    case _ => exact absurd h (by simp)

/-- Rounding zero to any number of decimal places gives zero. -/
theorem roundTo_zero (d : ℕ) : roundTo d 0 = 0 := by
  simp [roundTo, roundHalfEven]

/-- When an enrichment succeeds, the coerced hype value is total. -/
theorem hypeOf_eq (e : PyVal) (m : List (String × PyVal)) (hype : ℚ)
    (hm : metricsOf e = some m)
    (h1 : pyFloat (pyOr ((m.lookup "hype_score").getD PyVal.none) (.float 0)) = some hype) :
    hypeOf e = some hype := by
  simp [hypeOf, hm, h1]

/-- Claim C1: for every RawEvent that the consumer enriches into a record,
the record's engagement_score equals the coerced hype value times
`(imdb_rating or 5.0) / 10.0`, rounded to 4 decimal places, with the
neutral default 5.0 substituted when the rating is unknown. -/
theorem c1_engagement_formula (now : ℤ) (e : PyVal) (rec : Record)
    (h : enrich_record now e = some rec) :
    rec.engagement_score =
      roundTo 4 ((hypeOf e).getD 0 * (imdbOr5 rec.imdb_rating / 10)) := by
  obtain ⟨m, hype, hm, h1, _, _, h4⟩ := enrich_shape now e rec h
  rw [hypeOf_eq e m hype hm h1]
  simpa using h4

/-- The RawEvent of the spec's engagement-formula test: metrics
hype_score 80, imdb_rating 9.0. -/
def evC1 : PyVal :=
  .dict [("timestamp", .int 1), ("title", .str "X"),
         ("metrics", .dict [("hype_score", .int 80), ("imdb_rating", .float 9)])]

/-- The CanonicalRecord the consumer produces for `evC1`. -/
def recC1 : Record :=
  { timestamp := 1, title := .str "X", hype_score := 80, brand_equity := 0,
    imdb_rating := some 9, netflix_hours := 0, engagement_score := 72 }

/-- Witness for C1: enriching metrics `hype_score 80, imdb_rating 9.0`
yields engagement_score 72.0. -/
theorem c1_engagement_formula_witness :
    (enrich_record 0 evC1).map Record.engagement_score = some 72 := by
  have h : enrich_record 0 evC1 = some recC1 := by
    simp [evC1, recC1, enrich_record, enrichCore, List.lookup, pyOr, pyTruthy,
          pyFloat, pyInt, imdbOr5, roundTo, roundHalfEven]
    norm_num
  have h2 := c1_engagement_formula 0 evC1 recC1 h
  have hh : (hypeOf evC1).getD 0 = ((80 : ℤ) : ℚ) := rfl
  have hr : recC1.imdb_rating = some 9 := rfl
  rw [h]
  simp only [Option.map_some']
  rw [h2, hh, hr]
  norm_num [imdbOr5, roundTo, roundHalfEven]

/-- Claim C2: enriching an event with timestamp T, title "X" and an empty
metrics mapping yields hype_score 0.0, brand_equity 0, null imdb_rating,
netflix_hours 0.0 and engagement_score 0.0. -/
theorem c2_default_substitution (now T : ℤ) :
    ∃ ts, enrich_record now
      (.dict [("timestamp", .int T), ("title", .str "X"), ("metrics", .dict [])]) =
      some { timestamp := ts, title := .str "X", hype_score := 0, brand_equity := 0,
             imdb_rating := Option.none, netflix_hours := 0, engagement_score := 0 } := by
  refine ⟨if T = 0 then now else T, ?_⟩
  by_cases hT : T = 0 <;>
    simp [hT, enrich_record, enrichCore, List.lookup, pyOr, pyTruthy, pyFloat,
          pyInt, imdbOr5, roundTo, roundHalfEven]

/-- A schema-valid RawEvent whose integer timestamp is 0 (falsy in
Python). -/
def evTs0 : PyVal :=
  .dict [("timestamp", .int 0), ("title", .str "X"), ("metrics", .dict [])]

/-- Claim C3 counterexample: enrich_record substitutes the wall clock
`int(time.time())` when the event's timestamp is falsy, so enriching the
schema-valid event with timestamp 0 at two different clock instants yields
records with different timestamps - enrichment is not a pure function of
the RawEvent alone. -/
theorem c3_purity_counterexample :
    validRawEvent evTs0 = true ∧
    (enrich_record 100 evTs0).map Record.timestamp ≠
      (enrich_record 200 evTs0).map Record.timestamp := by
  refine ⟨rfl, ?_⟩
  have h1 : (enrich_record 100 evTs0).map Record.timestamp = some 100 := rfl
  have h2 : (enrich_record 200 evTs0).map Record.timestamp = some 200 := rfl
  rw [h1, h2]
  simp

/-- Claim C3 (amended): for every schema-valid RawEvent whose timestamp is
nonzero (truthy), enrichment does not read the clock, so enriching it twice
- at any two clock instants - produces identical CanonicalRecords. -/
theorem c3_purity_amended (e : PyVal) (hv : validRawEvent e = true)
    (ht : tsTruthy e = true) (n1 n2 : ℤ) :
    enrich_record n1 e = enrich_record n2 e := by
  cases e <;> simp [validRawEvent] at hv
  case dict kvs =>
    simp only [tsTruthy] at ht
    simp only [enrich_record]
    cases hm : (kvs.lookup "metrics").getD (.dict []) <;> try rfl
    case dict m =>
      show enrichCore n1 kvs m = enrichCore n2 kvs m
      simp [enrichCore, pyOr, ht]

/-- A concrete schema-valid event with a nonzero timestamp. -/
def evC3 : PyVal :=
  .dict [("timestamp", .int 7), ("title", .str "S"),
         ("metrics", .dict [("hype_score", .float 3)])]

/-- Witness for the amended C3: the valid event `evC3` enriches to the same
record at clock instants 100 and 200. -/
theorem c3_purity_amended_witness :
    validRawEvent evC3 = true ∧ tsTruthy evC3 = true ∧
    enrich_record 100 evC3 = enrich_record 200 evC3 :=
  ⟨rfl, rfl, c3_purity_amended evC3 rfl rfl 100 200⟩

/-- Claim C4: pop_batch removes up to max_n items from the head in
insertion (FIFO) order - it returns exactly the first `min n (length q)`
items and leaves the rest - returns empty on an empty queue, and on the
concrete queue built by enqueueing A, B, C a first dequeue of 2 yields
[A, B] and a second dequeue of 2 yields [C]. -/
theorem c4_dequeue_fifo :
    (∀ (n : ℕ) (q : List String), pop_batch n q = (q.take n, q.drop n)) ∧
    (∀ n : ℕ, pop_batch n [] = ([], [])) ∧
    pop_batch 2 (enqueue (enqueue (enqueue [] "A") "B") "C") = (["A", "B"], ["C"]) ∧
    pop_batch 2 ["C"] = (["C"], []) := by
  have key : ∀ (n : ℕ) (q : List String), pop_batch n q = (q.take n, q.drop n) := by
    intro n
    induction n with
    | zero => intro q; rfl
    | succ k ih =>
      intro q
      cases q with
      | nil => rfl
      | cons x rest => simp [pop_batch, ih]
  exact ⟨key, fun n => by cases n <;> rfl, rfl, rfl⟩

/-- A well-formed JSON event that lacks the title field. -/
def evNoTitle : PyVal := .dict [("timestamp", .int 1), ("metrics", .dict [])]

/-- The record the consumer produces for `evNoTitle`. -/
def recUnknown : Record :=
  { timestamp := 1, title := .str "Unknown", hype_score := 0, brand_equity := 0,
    imdb_rating := Option.none, netflix_hours := 0, engagement_score := 0 }

/-- Claim C5 counterexample: an event lacking the required title field is
NOT dropped at the consumer boundary - the consumer enriches it with the
substitute title "Unknown" and appends a record for it. -/
theorem c5_missing_title_counterexample :
    processItem 0 (some evNoTitle) = some [recUnknown] ∧
    recUnknown.title = .str "Unknown" := by
  constructor
  · have he : enrich_record 0 evNoTitle = some recUnknown := by
      simp [evNoTitle, recUnknown, enrich_record, enrichCore, List.lookup, pyOr,
            pyTruthy, pyFloat, pyInt, imdbOr5, roundTo, roundHalfEven]
    simp [processItem, safe_parse, he, show pyTruthy evNoTitle = true from rfl]
  · rfl

/-- Claim C5 (amended): an entry that is unparseable JSON is dropped at the
consumer boundary - safe_parse swallows the error, the falsy parse result
is skipped, no exception escapes and no record is appended to the output
log (the code logs a warning but keeps no skipped-item counter; and an
event that parses but lacks title is not dropped - see the
counterexample). -/
theorem c5_malformed_drop_amended (snapshotEvery : ℕ) (now : ℤ) (ok : Bool)
    (st : ConsumerState) :
    processItem now Option.none = some [] ∧
    ∃ st2, mainStep snapshotEvery now [Option.none] ok st = some st2 ∧
      st2.outLog = st.outLog := by
  refine ⟨rfl, ?_⟩
  have hb : processBatch now [Option.none] = some [] := rfl
  simp only [mainStep, hb, List.isEmpty_cons, Bool.false_eq_true, if_false]
  split
  · exact ⟨_, rfl, by simp⟩
  · exact ⟨_, rfl, by simp⟩

/-- An event whose metrics carry a truthy non-numeric hype_score. -/
def evBadHype : PyVal :=
  .dict [("timestamp", .int 1), ("title", .str "X"),
         ("metrics", .dict [("hype_score", .str "not a number")])]

/-- The initial consumer state: nothing processed, empty output log,
empty snapshot buffer and file. -/
def st0 : ConsumerState :=
  { totalProcessed := 0, outLog := [], snapAccum := [], snapFile := [] }

/-- Claim C6 counterexample: a truthy non-numeric hype_score does NOT
default to 0.0 - `float(...)` raises, the exception escapes enrich_record
(only the imdb_rating coercion is guarded by try/except), and a batch
containing such an event crashes the consumer loop with no record
appended. -/
theorem c6_nonnumeric_hype_counterexample :
    enrich_record 0 evBadHype = Option.none ∧
    processItem 0 (some evBadHype) = Option.none ∧
    mainStep 5000 0 [some evBadHype] true st0 = Option.none := by
  have he : enrich_record 0 evBadHype = Option.none := by
    simp [evBadHype, enrich_record, enrichCore, List.lookup, pyOr, pyTruthy,
          pyFloat, parsePyFloat, stripSign, splitDot, allDigits, digitsToNat]
  have hp : processItem 0 (some evBadHype) = Option.none := by
    simp [processItem, safe_parse, he, show pyTruthy evBadHype = true from rfl]
  have hb : processBatch 0 [some evBadHype] = Option.none := by
    simp [processBatch, hp]
  exact ⟨he, hp, by simp [mainStep, hb]⟩

/-- Claim C6 (amended): whenever enrichment succeeds, the record's
hype_score is the coerced source hype value rounded to 3 decimal places,
and it defaults to 0.0 when the source value is absent or falsy; a truthy
value that float() cannot coerce instead raises out of enrichment (see the
counterexample). -/
theorem c6_hype_default_amended (now : ℤ) (e : PyVal) (rec : Record)
    (h : enrich_record now e = some rec) :
    rec.hype_score = roundTo 3 ((hypeOf e).getD 0) ∧
    (∀ m, metricsOf e = some m →
      pyTruthy ((m.lookup "hype_score").getD PyVal.none) = false →
      rec.hype_score = 0) := by
  obtain ⟨m, hype, hm, h1, _, h3, _⟩ := enrich_shape now e rec h
  constructor
  · rw [hypeOf_eq e m hype hm h1]
    simpa using h3
  · intro m2 hm2 hfalse
    rw [hm] at hm2
    injection hm2 with hm2
    subst hm2
    rw [pyOr, hfalse] at h1
    simp only [Bool.false_eq_true, if_false, pyFloat] at h1
    injection h1 with h1
    rw [h3, ← h1, roundTo_zero]

/-- An event whose metrics mapping lacks hype_score entirely. -/
def evC6 : PyVal :=
  .dict [("timestamp", .int 2), ("title", .str "Y"), ("metrics", .dict [])]

/-- The record the consumer produces for `evC6`. -/
def recC6 : Record :=
  { timestamp := 2, title := .str "Y", hype_score := 0, brand_equity := 0,
    imdb_rating := Option.none, netflix_hours := 0, engagement_score := 0 }

/-- Witness for the amended C6: an absent hype_score yields a record whose
hype_score is 0.0. -/
theorem c6_hype_default_amended_witness :
    enrich_record 0 evC6 = some recC6 ∧ recC6.hype_score = 0 := by
  have h : enrich_record 0 evC6 = some recC6 := by
    simp [evC6, recC6, enrich_record, enrichCore, List.lookup, pyOr, pyTruthy,
          pyFloat, pyInt, imdbOr5, roundTo, roundHalfEven]
  exact ⟨h, (c6_hype_default_amended 0 evC6 recC6 h).2 [] rfl rfl⟩

/-- The batch loop is the order-preserving sequential composition of the
per-item step: its records are the per-item record lists concatenated in
dequeue order. -/
theorem processBatch_eq_mapM (now : ℤ) (items : List (Option PyVal)) :
    processBatch now items = (items.mapM (processItem now)).map List.flatten := by
  induction items with
  | nil => rfl
  | cons it rest ih =>
    simp only [processBatch, List.mapM_cons, ih]
    cases processItem now it with
    | none => rfl
    | some rs =>
      cases hrest : (rest.mapM (processItem now)) with
      | none => simp [hrest]
      | some rss => simp [hrest]

/-- Claim C7: whenever a main-loop iteration on a dequeued batch completes,
the output log is extended by exactly the records produced per item, in the
same relative order in which the items were dequeued. -/
theorem c7_order_preserved (snapshotEvery : ℕ) (now : ℤ)
    (items : List (Option PyVal)) (ok : Bool) (st st2 : ConsumerState)
    (h : mainStep snapshotEvery now items ok st = some st2) :
    ∃ rss, items.mapM (processItem now) = some rss ∧
      st2.outLog = st.outLog ++ rss.flatten := by
  by_cases he : items.isEmpty
  · rw [List.isEmpty_iff] at he
    subst he
    simp only [mainStep, List.isEmpty_nil, if_true] at h
    injection h with h
    subst h
    exact ⟨[], rfl, by simp⟩
  · simp only [mainStep, he, Bool.false_eq_true, if_false] at h
    cases hb : processBatch now items with
    | none => rw [hb] at h; exact absurd h (by simp)
    | some recs =>
      rw [hb] at h
      have hm := processBatch_eq_mapM now items
      rw [hb] at hm
      cases hmm : items.mapM (processItem now) with
      | none => rw [hmm] at hm; exact absurd hm (by simp)
      | some rss =>
        rw [hmm] at hm
        simp only [Option.map_some'] at hm
        injection hm with hm
        refine ⟨rss, rfl, ?_⟩
        simp only [] at h
        split at h <;> (injection h with h; subst h; simp [hm])

/-- First event of the C7 witness batch. -/
def evA : PyVal :=
  .dict [("timestamp", .int 11), ("title", .str "A"), ("metrics", .dict [])]

/-- Second event of the C7 witness batch. -/
def evB : PyVal :=
  .dict [("timestamp", .int 12), ("title", .str "B"), ("metrics", .dict [])]

/-- Record for `evA`. -/
def recA : Record :=
  { timestamp := 11, title := .str "A", hype_score := 0, brand_equity := 0,
    imdb_rating := Option.none, netflix_hours := 0, engagement_score := 0 }

/-- Record for `evB`. -/
def recB : Record :=
  { timestamp := 12, title := .str "B", hype_score := 0, brand_equity := 0,
    imdb_rating := Option.none, netflix_hours := 0, engagement_score := 0 }

/-- The consumer state after running the batch [evA, evB] from `st0`. -/
def stAB : ConsumerState :=
  { totalProcessed := 2, outLog := [recA, recB], snapAccum := [recA, recB],
    snapFile := [] }

/-- Evaluation fact shared by the C7 and C8 witnesses: the two-event batch
processes to [recA, recB]. -/
theorem processBatch_AB : processBatch 0 [some evA, some evB] = some [recA, recB] := by
  have ha : enrich_record 0 evA = some recA := by
    simp [evA, recA, enrich_record, enrichCore, List.lookup, pyOr, pyTruthy,
          pyFloat, pyInt, imdbOr5, roundTo, roundHalfEven]
  have hb : enrich_record 0 evB = some recB := by
    simp [evB, recB, enrich_record, enrichCore, List.lookup, pyOr, pyTruthy,
          pyFloat, pyInt, imdbOr5, roundTo, roundHalfEven]
  have hpa : processItem 0 (some evA) = some [recA] := by
    simp [processItem, safe_parse, ha, show pyTruthy evA = true from rfl]
  have hpb : processItem 0 (some evB) = some [recB] := by
    simp [processItem, safe_parse, hb, show pyTruthy evB = true from rfl]
  simp [processBatch, hpa, hpb]

/-- Witness for C7: on the concrete batch [evA, evB] from the empty state,
the completed iteration appends [recA, recB] to the output log in dequeue
order. -/
theorem c7_order_preserved_witness :
    ∃ rss, List.mapM (processItem 0) [some evA, some evB] = some rss ∧
      stAB.outLog = st0.outLog ++ rss.flatten := by
  have h : mainStep 5000 0 [some evA, some evB] true st0 = some stAB := by
    have hb := processBatch_AB
    simp [mainStep, hb, st0, stAB]
  exact c7_order_preserved 5000 0 [some evA, some evB] true st0 stAB h

/-- Claim C8: once a dequeued batch has been processed, its records are
appended to the output log no matter how the snapshot flush turns out -
the log contents after the iteration are identical for a successful and a
failing snapshot write, and equal to the previous log plus the batch's
records. -/
theorem c8_snapshot_failure_harmless (snapshotEvery : ℕ) (now : ℤ)
    (items : List (Option PyVal)) (st : ConsumerState) (ok1 ok2 : Bool)
    (recs : List Record) (h : processBatch now items = some recs) :
    (mainStep snapshotEvery now items ok1 st).map ConsumerState.outLog =
      (mainStep snapshotEvery now items ok2 st).map ConsumerState.outLog ∧
    ∃ st2, mainStep snapshotEvery now items ok1 st = some st2 ∧
      st2.outLog = st.outLog ++ recs := by
  by_cases he : items.isEmpty
  · rw [List.isEmpty_iff] at he
    subst he
    have : recs = [] := by
      have : (some [] : Option (List Record)) = some recs := h
      injection this with h2
      exact h2.symm
    subst this
    simp [mainStep]
  · simp only [mainStep, he, Bool.false_eq_true, if_false, h]
    constructor
    · split <;> simp
    · split
      · exact ⟨_, rfl, rfl⟩
      · exact ⟨_, rfl, rfl⟩

/-- Event used by the C8 witness. -/
def evC8 : PyVal :=
  .dict [("timestamp", .int 21), ("title", .str "W"), ("metrics", .dict [])]

/-- Record for `evC8`. -/
def recC8 : Record :=
  { timestamp := 21, title := .str "W", hype_score := 0, brand_equity := 0,
    imdb_rating := Option.none, netflix_hours := 0, engagement_score := 0 }

/-- Witness for C8: on a concrete singleton batch, the output log after the
iteration is the same whether the snapshot write succeeds or fails, and the
record is appended. -/
theorem c8_snapshot_failure_harmless_witness :
    (mainStep 1 0 [some evC8] true st0).map ConsumerState.outLog =
      (mainStep 1 0 [some evC8] false st0).map ConsumerState.outLog ∧
    ∃ st2, mainStep 1 0 [some evC8] true st0 = some st2 ∧
      st2.outLog = st0.outLog ++ [recC8] := by
  have hc : enrich_record 0 evC8 = some recC8 := by
    simp [evC8, recC8, enrich_record, enrichCore, List.lookup, pyOr, pyTruthy,
          pyFloat, pyInt, imdbOr5, roundTo, roundHalfEven]
  have hp : processItem 0 (some evC8) = some [recC8] := by
    simp [processItem, safe_parse, hc, show pyTruthy evC8 = true from rfl]
  have hb : processBatch 0 [some evC8] = some [recC8] := by
    simp [processBatch, hp]
  exact c8_snapshot_failure_harmless 1 0 [some evC8] st0 true false [recC8] hb

/-- Claim C9: the dashboard's regression section refuses to fit below the
configured minimum sample count - it reports insufficient data and returns
no fitted model - and with enough samples it fits ordinary least squares
and reports coefficient, intercept and R-squared (the three fields of
`Fit`). -/
theorem c9_regression_gating (samples : List (ℚ × ℚ)) :
    (samples.length ≤ 30 → mlSection samples = RegResult.insufficient) ∧
    (30 < samples.length → mlSection samples = RegResult.fitted (olsFit samples)) := by
  constructor
  · intro h
    simp [mlSection, Nat.not_lt.mpr h]
  · intro h
    simp [mlSection, h]

/-- 31 perfectly correlated samples on the line y = 2x. -/
def pts31 : List (ℚ × ℚ) := (List.range 31).map (fun i => ((i : ℚ), 2 * (i : ℚ)))

/-- Witness for C9: a single sample is gated as insufficient data, while
the 31-sample set on y = 2x is fitted, with slope exactly 2, intercept 0
and R-squared 1. -/
theorem c9_regression_gating_witness :
    mlSection [((1 : ℚ), (1 : ℚ))] = RegResult.insufficient ∧
    mlSection pts31 = RegResult.fitted (olsFit pts31) ∧
    (olsFit pts31).coef = 2 ∧ (olsFit pts31).intercept = 0 ∧ (olsFit pts31).r2 = 1 := by
  refine ⟨(c9_regression_gating [((1 : ℚ), (1 : ℚ))]).1 (by norm_num),
          (c9_regression_gating pts31).2 (by rw [show pts31.length = 31 from rfl]; norm_num),
          ?_⟩
  have hl : pts31 = [(0,0),(1,2),(2,4),(3,6),(4,8),(5,10),(6,12),(7,14),(8,16),(9,18),
      (10,20),(11,22),(12,24),(13,26),(14,28),(15,30),(16,32),(17,34),(18,36),(19,38),
      (20,40),(21,42),(22,44),(23,46),(24,48),(25,50),(26,52),(27,54),(28,56),(29,58),
      (30,60)] := by
    simp [pts31, List.range_succ]
    norm_num
  rw [hl]
  norm_num [olsFit]

/-- Claim C10: when an event's metrics carry imdb_rating 0.0 (the default
the producers emit for titles without an IMDb match), the record keeps
imdb_rating 0.0, yet the engagement formula treats the falsy 0.0 as the
neutral default 5.0: engagement_score = round(hype * 0.5, 4). -/
theorem c10_zero_rating_neutral (now : ℤ) (e : PyVal) (rec : Record)
    (m : List (String × PyVal)) (hm : metricsOf e = some m)
    (hz : m.lookup "imdb_rating" = some (.float 0))
    (h : enrich_record now e = some rec) :
    rec.imdb_rating = some 0 ∧
    rec.engagement_score = roundTo 4 ((hypeOf e).getD 0 * (1 / 2)) := by
  obtain ⟨m2, hype, hm2, h1, h2, _, h4⟩ := enrich_shape now e rec h
  rw [hm] at hm2
  injection hm2 with hm2
  subst hm2
  have himdb : rec.imdb_rating = some 0 := by
    rw [h2, hz]
    rfl
  refine ⟨himdb, ?_⟩
  rw [h4, himdb, hypeOf_eq e m hype hm h1]
  norm_num [imdbOr5]

/-- The C10 witness event: hype 10, imdb_rating 0.0. -/
def evC10 : PyVal :=
  .dict [("timestamp", .int 3), ("title", .str "Z"),
         ("metrics", .dict [("hype_score", .int 10), ("imdb_rating", .float 0)])]

/-- The record the consumer produces for `evC10`. -/
def recC10 : Record :=
  { timestamp := 3, title := .str "Z", hype_score := 10, brand_equity := 0,
    imdb_rating := some 0, netflix_hours := 0, engagement_score := 5 }

/-- Witness for C10: the zero-rated event keeps imdb_rating 0.0 and gets
engagement_score round(10 * 0.5, 4) = 5.0. -/
theorem c10_zero_rating_neutral_witness :
    enrich_record 0 evC10 = some recC10 ∧
    recC10.imdb_rating = some 0 ∧ recC10.engagement_score = 5 := by
  have h : enrich_record 0 evC10 = some recC10 := by
    simp [evC10, recC10, enrich_record, enrichCore, List.lookup, pyOr, pyTruthy,
          pyFloat, pyInt, imdbOr5, roundTo, roundHalfEven]
    norm_num
  have h2 := c10_zero_rating_neutral 0 evC10 recC10
    [("hype_score", .int 10), ("imdb_rating", .float 0)] rfl rfl h
  exact ⟨h, h2.1, rfl⟩
